import Mathlib

/-!
# Transportation Cost Optimization Engine — verification development

Shallow embedding, over exact rational arithmetic, of the cost-optimization
core of the repository:

* `src/helper/model_utils.py` — the cost aggregator
  (`generate_cost_matrix_from_data`): per-record cost models, group-by-route
  aggregation, rounding of the resulting unit-cost matrix;
* `src/models/transportation_lp.py` — the transportation LP
  (`TransportationLP.create_model` / `solve` / `get_solution_summary`):
  the linear program the solver builds, and the solution summary derived
  from a solved plan;
* `src/models/snowflake_transportation_model.py` — the batch runner
  (`SnowflakeTransportationModel.predict`) together with its per-scenario
  configuration overrides and its two cost-matrix resolution modes.

Python floats are modelled as exact rationals (`ℚ`); Python's fallible
operations (`ZeroDivisionError`, `KeyError`, `raise ValueError`) are modelled
with `Option`/`Except` so that a fault is an explicit value, never a silent
default.  The external LP backend (PuLP/CBC) is not re-implemented: the LP it
is handed is embedded as a feasibility predicate plus an optimality predicate,
and theorems about solver outcomes take the backend's contract (a returned
plan satisfies the constraints it was given) as an explicit hypothesis.
-/

namespace TransportOpt

/-! ## Cost aggregator (src/helper/model_utils.py) -/

/-- One raw shipment observation: the columns of `transportation_data.csv`
read by `generate_cost_matrix_from_data`.  Numeric columns are exact
rationals. -/
structure ShipmentRecord where
  warehouse : String
  customer : String
  distance_km : ℚ
  base_rate_per_km : ℚ
  road_condition_factor : ℚ
  vehicle_capacity_tons : ℚ
  fuel_price_per_liter : ℚ
  travel_time_hours : ℚ
  seasonal_factor : ℚ
  priority_multiplier : ℚ
deriving DecidableEq, Repr

/-- Per-record cost of the `time` model
(`model_utils.py`, lines 30-36): `travel_time_hours * hourly_rate *
seasonal_factor * priority_multiplier` with `hourly_rate = 25`. -/
def timeCost (r : ShipmentRecord) : ℚ :=
  r.travel_time_hours * 25 * r.seasonal_factor * r.priority_multiplier

/-- Per-record cost of the `composite` model
(`model_utils.py`, lines 37-61), with the source's intermediate quantities
kept as `let`-bindings; the time weight `0.3` is the exact rational `3/10`. -/
def compositeCost (r : ShipmentRecord) : ℚ :=
  let distance_cost := r.distance_km * r.base_rate_per_km * r.road_condition_factor
  let fuel_efficiency := 8 * (r.vehicle_capacity_tons / 10) * (1 / r.road_condition_factor)
  let fuel_cost := (r.distance_km / fuel_efficiency) * r.fuel_price_per_liter
  let time_cost := r.travel_time_hours * 25 * (3 / 10)
  let capacity_factor := 10 / r.vehicle_capacity_tons
  (distance_cost + fuel_cost + time_cost) * capacity_factor *
    r.seasonal_factor * r.priority_multiplier

/-- Round-half-to-even to an integer (the rounding mode of
`numpy`/`pandas.DataFrame.round`). -/
def roundHalfEvenInt (q : ℚ) : ℤ :=
  let n := ⌊q⌋
  if q - n < 1 / 2 then n
  else if 1 / 2 < q - n then n + 1
  else if n % 2 = 0 then n else n + 1

/-- `pandas.DataFrame.round(2)`: round half-to-even at two decimal places
(`model_utils.py`, line 81). -/
def round2 (q : ℚ) : ℚ := (roundHalfEvenInt (q * 100) : ℚ) / 100

def sumList (l : List ℚ) : ℚ := l.foldr (· + ·) 0

/-- Arithmetic mean, as `pandas.GroupBy.mean` computes it on a group. -/
def meanList (l : List ℚ) : ℚ := sumList l / (l.length : ℚ)

def insertSorted (q : ℚ) : List ℚ → List ℚ
  | [] => [q]
  | x :: xs => if q ≤ x then q :: x :: xs else x :: insertSorted q xs

def sortQ : List ℚ → List ℚ
  | [] => []
  | x :: xs => insertSorted x (sortQ xs)

/-- Median as `pandas.GroupBy.median` computes it: middle element of the
sorted group, or the mean of the two middle elements for even-sized groups. -/
def medianList (l : List ℚ) : ℚ :=
  let s := sortQ l
  let n := s.length
  if n = 0 then 0
  else if n % 2 = 1 then s.getD (n / 2) 0
  else (s.getD (n / 2 - 1) 0 + s.getD (n / 2) 0) / 2

def minList : List ℚ → ℚ
  | [] => 0
  | x :: xs => xs.foldl min x

def maxList : List ℚ → ℚ
  | [] => 0
  | x :: xs => xs.foldl max x

/-- The distinct (warehouse, customer) route keys of a costed record list, in
first-occurrence order (`groupby(['warehouse', 'customer'])`; `pandas` orders
groups by sorted key, which is immaterial to every property below). -/
def routeKeys (rows : List (String × String × ℚ)) : List (String × String) :=
  rows.foldl (fun ks t => if (t.1, t.2.1) ∈ ks then ks else ks ++ [(t.1, t.2.1)]) []

/-- All `calculated_cost` values of one route group. -/
def routeCosts (rows : List (String × String × ℚ)) (k : String × String) : List ℚ :=
  rows.filterMap fun t => if (t.1, t.2.1) = k then some t.2.2 else none

/-- The aggregation dispatch of `generate_cost_matrix_from_data`
(`model_utils.py`, lines 65-81): reduce each route group with the chosen
statistic, then round the resulting matrix to two decimals.  An unknown
`aggregation` raises `ValueError`. -/
def aggregateRoutes (rows : List (String × String × ℚ)) (aggregation : String) :
    Except String (List ((String × String) × ℚ)) :=
  let matrixWith : (List ℚ → ℚ) → List ((String × String) × ℚ) := fun reduce =>
    (routeKeys rows).map fun k => (k, round2 (reduce (routeCosts rows k)))
  if aggregation = "mean" then Except.ok (matrixWith meanList)
  else if aggregation = "median" then Except.ok (matrixWith medianList)
  else if aggregation = "min" then Except.ok (matrixWith minList)
  else if aggregation = "max" then Except.ok (matrixWith maxList)
  else Except.error ("Unknown aggregation method: " ++ aggregation)

/-- `generate_cost_matrix_from_data` (`model_utils.py`, lines 26-91): compute
`calculated_cost` per record under the chosen model, then aggregate by route.
An unknown `model_type` raises `ValueError` before any cost is aggregated. -/
def generate_cost_matrix_from_data (rows : List ShipmentRecord)
    (model_type aggregation : String) :
    Except String (List ((String × String) × ℚ)) :=
  if model_type = "time" then
    aggregateRoutes (rows.map fun r => (r.warehouse, r.customer, timeCost r)) aggregation
  else if model_type = "composite" then
    aggregateRoutes (rows.map fun r => (r.warehouse, r.customer, compositeCost r)) aggregation
  else Except.error ("Unknown model_type: " ++ model_type)

/-! ## Transportation LP (src/models/transportation_lp.py)

The pipeline of `SnowflakeTransportationModel.predict` always hands
`TransportationLP` the fixed node set {Warehouse_A, Warehouse_B} ×
{Customer_1, Customer_2}; the four-entry structures below embed the cost
matrix, the constraint configuration and a flow assignment for that node
set.  `create_model` itself is generic over node lists and is embedded
separately (`create_model` below) for the validation claims. -/

/-- Unit-cost matrix entry per (warehouse, customer) pair. -/
structure CostMatrix where
  a_to_1 : ℚ
  a_to_2 : ℚ
  b_to_1 : ℚ
  b_to_2 : ℚ
deriving DecidableEq, Repr

/-- The constraint configuration: `config['warehouses'][…]['capacity']` and
`config['customers'][…]['demand']`. -/
structure Constraints where
  capA : ℚ
  capB : ℚ
  d1 : ℚ
  d2 : ℚ
deriving DecidableEq, Repr

/-- One value per decision variable `x_{warehouse}_{customer}`. -/
structure Flows where
  a1 : ℚ
  a2 : ℚ
  b1 : ℚ
  b2 : ℚ
deriving DecidableEq, Repr

/-- The LP objective built by `create_model` (lines 85-92):
`Σ cost[w][c] * x[w][c]`. -/
def totalCost (c : CostMatrix) (x : Flows) : ℚ :=
  c.a_to_1 * x.a1 + c.a_to_2 * x.a2 + c.b_to_1 * x.b1 + c.b_to_2 * x.b2

/-- The constraints built by `create_model` (lines 94-117): nonnegative
variables (`lowBound=0`), per-warehouse `Σ x ≤ capacity`, per-customer
`Σ x ≥ demand`. -/
def FeasiblePlan (k : Constraints) (x : Flows) : Prop :=
  0 ≤ x.a1 ∧ 0 ≤ x.a2 ∧ 0 ≤ x.b1 ∧ 0 ≤ x.b2 ∧
  x.a1 + x.a2 ≤ k.capA ∧ x.b1 + x.b2 ≤ k.capB ∧
  k.d1 ≤ x.a1 + x.b1 ∧ k.d2 ≤ x.a2 + x.b2

/-- What `model.status == LpStatusOptimal` asserts of the plan the LP backend
returns: it satisfies every constraint and minimizes the objective. -/
def OptimalPlan (c : CostMatrix) (k : Constraints) (x : Flows) : Prop :=
  FeasiblePlan k x ∧ ∀ y, FeasiblePlan k y → totalCost c x ≤ totalCost c y

/-- Python division: `a / b` raises `ZeroDivisionError` when `b = 0`. -/
def pyDiv (a b : ℚ) : Option ℚ := if b = 0 then none else some (a / b)

/-- The summary record built by `get_solution_summary` (lines 165-207),
flattened: total cost, the four shipment quantities, the two
`utilization_rate` entries and the two `satisfaction_rate` entries. -/
structure Summary where
  total_cost : ℚ
  ship_a1 : ℚ
  ship_a2 : ℚ
  ship_b1 : ℚ
  ship_b2 : ℚ
  utilization_a : ℚ
  utilization_b : ℚ
  satisfaction_1 : ℚ
  satisfaction_2 : ℚ
deriving DecidableEq, Repr

/-- `get_solution_summary` on a solved plan (lines 180-207):
`utilization_rate = warehouse_total / capacity` and
`satisfaction_rate = customer_total / demand`, with Python division —
a zero capacity or zero demand is a `ZeroDivisionError`, modelled as
`none`. -/
def get_solution_summary (k : Constraints) (c : CostMatrix) (x : Flows) :
    Option Summary :=
  match pyDiv (x.a1 + x.a2) k.capA, pyDiv (x.b1 + x.b2) k.capB,
      pyDiv (x.a1 + x.b1) k.d1, pyDiv (x.a2 + x.b2) k.d2 with
  | some uA, some uB, some s1, some s2 =>
      some { total_cost := totalCost c x,
             ship_a1 := x.a1, ship_a2 := x.a2, ship_b1 := x.b1, ship_b2 := x.b2,
             utilization_a := uA, utilization_b := uB,
             satisfaction_1 := s1, satisfaction_2 := s2 }
  | _, _, _, _ => none

/-! ### The generic `create_model` (lines 62-117)

`create_model` takes its node lists from the pivoted cost matrix
(`cost_matrix.index` / `cost_matrix.columns`) and looks each node up in the
constraint configuration; the lookup is the only operation that can fail
(a Python `KeyError`).  No value validation of any kind is performed. -/

/-- The LP formulation `create_model` hands to the backend: objective
coefficients per pair, one capacity bound per warehouse, one demand bound
per customer. -/
structure Formulation where
  objective : List ((String × String) × ℚ)
  capacity_bounds : List (String × ℚ)
  demand_bounds : List (String × ℚ)
deriving DecidableEq, Repr

/-- `config['warehouses'][w]['capacity']` / `config['customers'][c]['demand']`:
a missing key is a `KeyError`. -/
def lookupCfg (entries : List (String × ℚ)) (k : String) : Except String ℚ :=
  match entries.find? (fun p => p.1 == k) with
  | some p => Except.ok p.2
  | none => Except.error ("KeyError: " ++ k)

/-- `TransportationLP.create_model` (lines 62-117) over arbitrary node lists:
builds the objective from the cost matrix and the capacity/demand bounds from
the configuration, performing no validation of the values. -/
def create_model (warehouses customers : List String)
    (cost : String → String → ℚ)
    (warehouse_cfg customer_cfg : List (String × ℚ)) :
    Except String Formulation := do
  let objective := warehouses.flatMap fun w => customers.map fun c => ((w, c), cost w c)
  let capacity_bounds ← warehouses.mapM fun w => do
    let cap ← lookupCfg warehouse_cfg w
    Except.ok (w, cap)
  let demand_bounds ← customers.mapM fun c => do
    let d ← lookupCfg customer_cfg c
    Except.ok (c, d)
  Except.ok ⟨objective, capacity_bounds, demand_bounds⟩

/-! ## Batch runner (src/models/snowflake_transportation_model.py) -/

/-- One input row of `predict`, with every per-scenario column optional
(`row.get` / `'column' in row`): `none` models an absent column.  The
`feature_timestamp` and execution-mode metadata columns carry no engine
semantics and are omitted. -/
structure ScenRow where
  scenario_name : Option String
  warehouse_a_capacity : Option ℚ
  warehouse_b_capacity : Option ℚ
  customer_1_demand : Option ℚ
  customer_2_demand : Option ℚ
  cost_a_to_1 : Option ℚ
  cost_a_to_2 : Option ℚ
  cost_b_to_1 : Option ℚ
  cost_b_to_2 : Option ℚ
  use_feature_store : Option Bool
deriving DecidableEq, Repr

/-- A row with every per-scenario column absent. -/
def emptyScenRow : ScenRow :=
  ⟨none, none, none, none, none, none, none, none, none, none⟩

/-- Python `int()` on a number: truncation toward zero. -/
def pyInt (q : ℚ) : ℤ := if 0 ≤ q then ⌊q⌋ else ⌈q⌉

/-- The capacity/demand override block of `predict`
(`snowflake_transportation_model.py`, lines 322-335): each provided override
is coerced with `int()` and replaces the template value. -/
def applyConfigOverrides (base : Constraints) (s : ScenRow) : Constraints :=
  { capA := match s.warehouse_a_capacity with
      | some v => ((pyInt v : ℤ) : ℚ)
      | none => base.capA,
    capB := match s.warehouse_b_capacity with
      | some v => ((pyInt v : ℤ) : ℚ)
      | none => base.capB,
    d1 := match s.customer_1_demand with
      | some v => ((pyInt v : ℤ) : ℚ)
      | none => base.d1,
    d2 := match s.customer_2_demand with
      | some v => ((pyInt v : ℤ) : ℚ)
      | none => base.d2 }

/-- `_get_cost_matrix_python_mode` (lines 445-498).  `base` is the matrix the
feature store would return (`none` models the external source being
unavailable, which the source re-raises). -/
def getCostMatrixPythonMode (base : Option CostMatrix) (s : ScenRow) :
    Except String (CostMatrix × String) :=
  let use_fs := s.use_feature_store.getD true
  let has_cost_overrides := s.cost_a_to_1.isSome || s.cost_a_to_2.isSome ||
    s.cost_b_to_1.isSome || s.cost_b_to_2.isSome
  if has_cost_overrides && use_fs then
    match base with
    | some m =>
        Except.ok ({ a_to_1 := s.cost_a_to_1.getD m.a_to_1,
                     a_to_2 := s.cost_a_to_2.getD m.a_to_2,
                     b_to_1 := s.cost_b_to_1.getD m.b_to_1,
                     b_to_2 := s.cost_b_to_2.getD m.b_to_2 }, "override")
    | none => Except.error "Failed to retrieve cost matrix from feature store"
  else if use_fs then
    match base with
    | some m => Except.ok (m, "feature_store")
    | none => Except.error "Failed to retrieve cost matrix from feature store"
  else if !has_cost_overrides then
    Except.error "use_feature_store=False requires cost overrides"
  else
    Except.ok ({ a_to_1 := s.cost_a_to_1.getD 10,
                 a_to_2 := s.cost_a_to_2.getD 12,
                 b_to_1 := s.cost_b_to_1.getD 15,
                 b_to_2 := s.cost_b_to_2.getD 8 }, "override_only")

/-- `_get_cost_matrix_sql_mode` (lines 500-524): every one of the four cost
columns is required; any missing one raises `ValueError`. -/
def getCostMatrixSqlMode (s : ScenRow) : Except String (CostMatrix × String) :=
  match s.cost_a_to_1, s.cost_a_to_2, s.cost_b_to_1, s.cost_b_to_2 with
  | some c1, some c2, some c3, some c4 =>
      Except.ok (⟨c1, c2, c3, c4⟩, "sql_input")
  | _, _, _, _ => Except.error "SQL mode requires all cost parameters"

/-- One output row of `predict` (lines 364-409 and 411-435).  The
`feature_timestamp`/`execution_mode` metadata columns are omitted; `error`
is the error column of an error row (absent, i.e. `none`, on normal rows). -/
structure ResultRow where
  scenario_name : String
  optimal_cost : Option ℚ
  feasible : Bool
  shipment_a_to_1 : ℚ
  shipment_a_to_2 : ℚ
  shipment_b_to_1 : ℚ
  shipment_b_to_2 : ℚ
  warehouse_a_utilization : ℚ
  warehouse_b_utilization : ℚ
  cost_matrix_source : String
  error : Option String
deriving DecidableEq, Repr

/-- The feasible branch of `predict` (lines 380-393): populate the row from
the solution summary, utilizations scaled by 100. -/
def feasibleRow (nm src : String) (s : Summary) : ResultRow :=
  { scenario_name := nm, optimal_cost := some s.total_cost, feasible := true,
    shipment_a_to_1 := s.ship_a1, shipment_a_to_2 := s.ship_a2,
    shipment_b_to_1 := s.ship_b1, shipment_b_to_2 := s.ship_b2,
    warehouse_a_utilization := s.utilization_a * 100,
    warehouse_b_utilization := s.utilization_b * 100,
    cost_matrix_source := src, error := none }

/-- The infeasible branch of `predict` (lines 394-404): cost `None`,
`feasible` false, every flow and utilization zero. -/
def infeasibleRow (nm src : String) : ResultRow :=
  { scenario_name := nm, optimal_cost := none, feasible := false,
    shipment_a_to_1 := 0, shipment_a_to_2 := 0,
    shipment_b_to_1 := 0, shipment_b_to_2 := 0,
    warehouse_a_utilization := 0, warehouse_b_utilization := 0,
    cost_matrix_source := src, error := none }

/-- The `except` handler of `predict` (lines 411-435): an error row carrying
the scenario identifier and the error text, flows zeroed, source `error`. -/
def errorRow (nm msg : String) : ResultRow :=
  { scenario_name := nm, optimal_cost := none, feasible := false,
    shipment_a_to_1 := 0, shipment_a_to_2 := 0,
    shipment_b_to_1 := 0, shipment_b_to_2 := 0,
    warehouse_a_utilization := 0, warehouse_b_utilization := 0,
    cost_matrix_source := "error", error := some msg }

/-- The solve-and-summarize tail of one `predict` iteration (lines 364-404):
`out` is what the LP backend reported (`some x` when
`status == LpStatusOptimal` with plan `x`, `none` otherwise).  A
`ZeroDivisionError` inside `get_solution_summary` propagates as an
exception (caught by `predict`'s handler into an error row). -/
def rowOfSolve (nm src : String) (k : Constraints) (c : CostMatrix)
    (out : Option Flows) : ResultRow :=
  match out with
  | some x =>
      match get_solution_summary k c x with
      | some s => feasibleRow nm src s
      | none => errorRow nm "ZeroDivisionError: division by zero"
  | none => infeasibleRow nm src

/-- `row.get('scenario_name', f'scenario_{len(results)}')` (line 320): the
default name uses the number of rows emitted so far, which equals the row's
position. -/
def scenName (i : Nat) (s : ScenRow) : String :=
  match s.scenario_name with
  | some nm => nm
  | none => "scenario_" ++ toString i

/-- One iteration of `predict`'s loop (lines 317-436): run the per-scenario
body; a raised error is caught and converted to an error row for that
scenario. -/
def stepScenRow (body : Nat → ScenRow → Except String ResultRow)
    (i : Nat) (s : ScenRow) : ResultRow :=
  match body i s with
  | Except.ok r => r
  | Except.error e => errorRow (scenName i s) e

/-- `predict`'s loop over the input rows (lines 315-438), carrying the count
of rows emitted so far: exactly one result row is appended per input row. -/
def predictLoop (body : Nat → ScenRow → Except String ResultRow) :
    Nat → List ScenRow → List ResultRow
  | _, [] => []
  | i, s :: rest => stepScenRow body i s :: predictLoop body (i + 1) rest

/-- `SnowflakeTransportationModel.predict` (lines 295-438) as a function of
the per-scenario body. -/
def predictBatch (body : Nat → ScenRow → Except String ResultRow)
    (rows : List ScenRow) : List ResultRow :=
  predictLoop body 0 rows

/-! ## Reference data (the scenario of the spec and of
`create_sample_scenarios_table`) -/

/-- Reference unit costs: A→1 = 5, A→2 = 8, B→1 = 6, B→2 = 4. -/
def refCost : CostMatrix := ⟨5, 8, 6, 4⟩

/-- Reference constraints: capacities {A: 100, B: 80}, demands {1: 70, 2: 60}. -/
def refK : Constraints := ⟨100, 80, 70, 60⟩

/-- The optimal plan of the reference scenario: A→1 = 70, B→2 = 60. -/
def refPlan : Flows := ⟨70, 0, 0, 60⟩

/-- The `impossible_demand` scenario: capacities {A: 50, B: 40},
demands {1: 70, 2: 60}. -/
def infeasK : Constraints := ⟨50, 40, 70, 60⟩

/-- A zero-capacity, zero-demand-node variant: capacities {A: 0, B: 80},
demands {1: 0, 2: 60}. -/
def zeroCapK : Constraints := ⟨0, 80, 0, 60⟩

/-- The optimal plan under `zeroCapK`: ship B→2 = 60 only. -/
def zeroCapPlan : Flows := ⟨0, 0, 0, 60⟩

/-- The warehouse list the pivoted cost matrix induces
(`cost_matrix.index`). -/
def refWarehouses : List String := ["Warehouse_A", "Warehouse_B"]

/-- The customer list the pivoted cost matrix induces
(`cost_matrix.columns`). -/
def refCustomers : List String := ["Customer_1", "Customer_2"]

/-- The reference cost matrix as a lookup function for the generic
`create_model`. -/
def refCostFun : String → String → ℚ := fun w c =>
  if w = "Warehouse_A" then (if c = "Customer_1" then 5 else 8)
  else if c = "Customer_1" then 6 else 4

/-! ## Shared lemmas -/

theorem refPlan_feasible : FeasiblePlan refK refPlan := by
  refine ⟨?_, ?_, ?_, ?_, ?_, ?_, ?_, ?_⟩ <;> norm_num [refK, refPlan]

theorem refPlan_cost_le (y : Flows) (hy : FeasiblePlan refK y) :
    590 + 3 * y.a2 + y.b1 ≤ totalCost refCost y := by
  simp only [FeasiblePlan, refK] at hy
  obtain ⟨h1, h2, h3, h4, h5, h6, h7, h8⟩ := hy
  simp only [totalCost, refCost]
  linarith

theorem infeasK_infeasible (x : Flows) : ¬ FeasiblePlan infeasK x := by
  intro hx
  simp only [FeasiblePlan, infeasK] at hx
  obtain ⟨h1, h2, h3, h4, h5, h6, h7, h8⟩ := hx
  linarith

/-! ## Claims -/

/-- C1: for the reference scenario with capacities {Warehouse_A: 100,
Warehouse_B: 80}, demands {Customer_1: 70, Customer_2: 60} and unit costs
{A→1: 5, A→2: 8, B→1: 6, B→2: 4}, the LP the solver builds has the feasible
plan A→1 = 70, B→2 = 60 as its unique optimum, with total cost 590, and the
solution summary reports warehouse utilization rates 0.7 and 0.75 (70% and
75% after the `* 100` scaling of `predict`). -/
theorem C1_reference_scenario_optimal :
    OptimalPlan refCost refK refPlan ∧
    totalCost refCost refPlan = 590 ∧
    (∀ y, OptimalPlan refCost refK y → y = refPlan) ∧
    get_solution_summary refK refCost refPlan =
      some ⟨590, 70, 0, 0, 60, 7 / 10, 3 / 4, 1, 1⟩ ∧
    (7 / 10 : ℚ) * 100 = 70 ∧ (3 / 4 : ℚ) * 100 = 75 := by
  have hopt : OptimalPlan refCost refK refPlan := by
    refine ⟨refPlan_feasible, fun y hy => ?_⟩
    have h := refPlan_cost_le y hy
    simp only [FeasiblePlan, refK] at hy
    obtain ⟨h1, h2, h3, h4, h5, h6, h7, h8⟩ := hy
    simp only [totalCost, refCost, refPlan]
    linarith
  refine ⟨hopt, by norm_num [totalCost, refCost, refPlan], ?_, ?_, by norm_num, by norm_num⟩
  · rintro ⟨a1, a2, b1, b2⟩ ⟨hfeas, hmin⟩
    have hub : totalCost refCost ⟨a1, a2, b1, b2⟩ ≤ totalCost refCost refPlan :=
      hmin refPlan refPlan_feasible
    have hlb := refPlan_cost_le ⟨a1, a2, b1, b2⟩ hfeas
    simp only [FeasiblePlan, refK] at hfeas
    obtain ⟨h1, h2, h3, h4, h5, h6, h7, h8⟩ := hfeas
    simp only [totalCost, refCost, refPlan] at hub hlb
    have ha2 : a2 = 0 := by linarith
    have hb1 : b1 = 0 := by linarith
    simp only [refPlan, Flows.mk.injEq]
    refine ⟨by linarith, ha2, hb1, by linarith⟩
  · simp only [get_solution_summary, pyDiv, totalCost, refK, refCost, refPlan]
    norm_num

/-- C2: for every scenario whose LP has no feasible solution, the emitted
result row is exactly the infeasible row — `feasible = false`, every per-pair
flow zero, `optimal_cost` absent — and, whatever the solver reported, a row
with `feasible = false` always has all four flows zero and no total cost
(a flow plan is never emitted partially populated). -/
theorem C2_infeasible_scenario_zero_row :
    ∀ (k : Constraints) (c : CostMatrix) (nm src : String) (out : Option Flows),
      (∀ x, out = some x → FeasiblePlan k x) →
      (∀ x, ¬ FeasiblePlan k x) →
      (out = none ∧
       rowOfSolve nm src k c out = infeasibleRow nm src ∧
       (rowOfSolve nm src k c out).feasible = false ∧
       (rowOfSolve nm src k c out).optimal_cost = none ∧
       (rowOfSolve nm src k c out).shipment_a_to_1 = 0 ∧
       (rowOfSolve nm src k c out).shipment_a_to_2 = 0 ∧
       (rowOfSolve nm src k c out).shipment_b_to_1 = 0 ∧
       (rowOfSolve nm src k c out).shipment_b_to_2 = 0) ∧
      (∀ out' : Option Flows,
        (rowOfSolve nm src k c out').feasible = false →
        (rowOfSolve nm src k c out').optimal_cost = none ∧
        (rowOfSolve nm src k c out').shipment_a_to_1 = 0 ∧
        (rowOfSolve nm src k c out').shipment_a_to_2 = 0 ∧
        (rowOfSolve nm src k c out').shipment_b_to_1 = 0 ∧
        (rowOfSolve nm src k c out').shipment_b_to_2 = 0) := by
  intro k c nm src out hsound hinf
  have hnone : out = none := by
    cases hout : out with
    | none => rfl
    | some x => exact absurd (hsound x hout) (hinf x)
  subst hnone
  refine ⟨⟨rfl, rfl, rfl, rfl, rfl, rfl, rfl, rfl⟩, ?_⟩
  intro out' hfalse
  cases out' with
  | none => exact ⟨rfl, rfl, rfl, rfl, rfl⟩
  | some x =>
      cases hsum : get_solution_summary k c x with
      | none => simp [rowOfSolve, hsum, errorRow]
      | some s => simp [rowOfSolve, hsum, feasibleRow] at hfalse

/-- Witness for C2 at the `impossible_demand` scenario (capacities
{A: 50, B: 40}, demands {1: 70, 2: 60}, total capacity 90 < total
demand 130). -/
theorem C2_infeasible_scenario_zero_row_witness :
    rowOfSolve "impossible_demand" "feature_store" infeasK refCost none =
      infeasibleRow "impossible_demand" "feature_store" :=
  ((C2_infeasible_scenario_zero_row infeasK refCost "impossible_demand"
      "feature_store" none (fun _ hx => Option.noConfusion hx)
      infeasK_infeasible).1).2.1

/-- C3: the claim says a zero capacity (or zero demand) node yields
utilization (or satisfaction) 0 in the solution summary; in the code
`get_solution_summary` divides `warehouse_total / capacity` and
`customer_total / demand` unguarded, so a zero-capacity/zero-demand node
makes the summary raise `ZeroDivisionError` (modelled: `none`) even for a
genuinely solved, optimal plan. -/
theorem C3_zero_capacity_division_fault :
    OptimalPlan refCost zeroCapK zeroCapPlan ∧
    get_solution_summary zeroCapK refCost zeroCapPlan = none := by
  constructor
  · constructor
    · refine ⟨?_, ?_, ?_, ?_, ?_, ?_, ?_, ?_⟩ <;> norm_num [zeroCapK, zeroCapPlan]
    · rintro ⟨a1, a2, b1, b2⟩ hy
      simp only [FeasiblePlan, zeroCapK] at hy
      obtain ⟨h1, h2, h3, h4, h5, h6, h7, h8⟩ := hy
      simp only [totalCost, refCost, zeroCapPlan]
      linarith
  · rfl

/-- C4 counterexample: a constraint configuration with the malformed
(negative) capacity −5 for Warehouse_A is accepted by `create_model` without
any validation error — the formulation, bounds included verbatim, is handed
on to the LP backend. -/
theorem C4_negative_capacity_not_rejected :
    create_model refWarehouses refCustomers refCostFun
        [("Warehouse_A", -5), ("Warehouse_B", 80)]
        [("Customer_1", 70), ("Customer_2", 60)] =
      Except.ok ⟨[(("Warehouse_A", "Customer_1"), 5), (("Warehouse_A", "Customer_2"), 8),
                  (("Warehouse_B", "Customer_1"), 6), (("Warehouse_B", "Customer_2"), 4)],
                 [("Warehouse_A", -5), ("Warehouse_B", 80)],
                 [("Customer_1", 70), ("Customer_2", 60)]⟩ := rfl

/-- C4 (amended): `create_model` performs no validation of capacity or
demand values — any rational values, negative ones included, are built
verbatim into the formulation with no error; the only pre-solve failure is a
`KeyError` when a node of the cost matrix is missing from the constraint
configuration. -/
theorem C4_no_validation_before_solve :
    ∀ (capA capB dem1 dem2 : ℚ) (cost : String → String → ℚ),
      create_model refWarehouses refCustomers cost
          [("Warehouse_A", capA), ("Warehouse_B", capB)]
          [("Customer_1", dem1), ("Customer_2", dem2)] =
        Except.ok ⟨[(("Warehouse_A", "Customer_1"), cost "Warehouse_A" "Customer_1"),
                    (("Warehouse_A", "Customer_2"), cost "Warehouse_A" "Customer_2"),
                    (("Warehouse_B", "Customer_1"), cost "Warehouse_B" "Customer_1"),
                    (("Warehouse_B", "Customer_2"), cost "Warehouse_B" "Customer_2")],
                   [("Warehouse_A", capA), ("Warehouse_B", capB)],
                   [("Customer_1", dem1), ("Customer_2", dem2)]⟩ ∧
      create_model refWarehouses refCustomers cost
          [("Warehouse_A", capA)] [("Customer_1", dem1), ("Customer_2", dem2)] =
        Except.error ("KeyError: " ++ "Warehouse_B") :=
  fun _ _ _ _ _ => ⟨rfl, rfl⟩

/-- A scenario row that disables the feature store and supplies only one of
the four pair costs (A→1 = 7). -/
def partialCostRow : ScenRow :=
  { emptyScenRow with
      scenario_name := some "partial_costs",
      cost_a_to_1 := some 7,
      use_feature_store := some false }

/-- C5 counterexample: in Python mode with `use_feature_store=False`, a
scenario supplying only `cost_a_to_1 = 7` is not rejected — the three missing
pair costs are silently filled with the built-in defaults (A→2: 12, B→1: 15,
B→2: 8) and a complete matrix is returned. -/
theorem C5_missing_costs_silently_defaulted :
    getCostMatrixPythonMode none partialCostRow =
      Except.ok (⟨7, 12, 15, 8⟩, "override_only") := rfl

/-- C5 (amended): in SQL mode a missing pair cost is a hard error and no
matrix is returned; in Python mode with `use_feature_store=False` and at
least one pair cost supplied, missing pair costs are silently replaced by the
defaults 10 (A→1), 12 (A→2), 15 (B→1) and 8 (B→2) instead of failing. -/
theorem C5_cost_resolution_by_mode :
    (∀ s : ScenRow,
      (s.cost_a_to_1 = none ∨ s.cost_a_to_2 = none ∨
       s.cost_b_to_1 = none ∨ s.cost_b_to_2 = none) →
      ∀ m, getCostMatrixSqlMode s ≠ Except.ok m) ∧
    (∀ (base : Option CostMatrix) (s : ScenRow),
      s.use_feature_store = some false →
      (s.cost_a_to_1.isSome || s.cost_a_to_2.isSome ||
       s.cost_b_to_1.isSome || s.cost_b_to_2.isSome) = true →
      getCostMatrixPythonMode base s =
        Except.ok (⟨s.cost_a_to_1.getD 10, s.cost_a_to_2.getD 12,
                    s.cost_b_to_1.getD 15, s.cost_b_to_2.getD 8⟩,
                   "override_only")) := by
  constructor
  · rintro ⟨nm, wa, wb, d1, d2, c1, c2, c3, c4, fs⟩ h m
    cases c1 <;> cases c2 <;> cases c3 <;> cases c4 <;>
      simp_all [getCostMatrixSqlMode]
  · rintro base ⟨nm, wa, wb, d1, d2, c1, c2, c3, c4, fs⟩ hfs hov
    subst hfs
    simp only at hov
    simp [getCostMatrixPythonMode, hov]

/-- C6: for every shipment record, the composite-model per-record cost equals
`(distance·rate·road + (distance / (8·(cap/10)·(1/road)))·fuel +
time·25·0.3) · (10/cap) · seasonal · priority` (0.3 = 3/10 exactly), and the
time-model cost equals `time·25·seasonal·priority`. -/
theorem C6_per_record_cost_formulas :
    ∀ r : ShipmentRecord,
      compositeCost r =
        (r.distance_km * r.base_rate_per_km * r.road_condition_factor +
          (r.distance_km /
            (8 * (r.vehicle_capacity_tons / 10) * (1 / r.road_condition_factor))) *
            r.fuel_price_per_liter +
          r.travel_time_hours * 25 * (3 / 10)) *
          (10 / r.vehicle_capacity_tons) * r.seasonal_factor * r.priority_multiplier ∧
      timeCost r =
        r.travel_time_hours * 25 * r.seasonal_factor * r.priority_multiplier :=
  fun _ => ⟨rfl, rfl⟩

theorem predictLoop_length (body : Nat → ScenRow → Except String ResultRow) :
    ∀ (rows : List ScenRow) (i : Nat),
      (predictLoop body i rows).length = rows.length := by
  intro rows
  induction rows with
  | nil => intro i; rfl
  | cons s rest ih => intro i; simp [predictLoop, ih]

theorem predictLoop_getElem (body : Nat → ScenRow → Except String ResultRow) :
    ∀ (rows : List ScenRow) (i j : Nat),
      (predictLoop body i rows)[j]? = (rows[j]?).map (stepScenRow body (i + j)) := by
  intro rows
  induction rows with
  | nil => intro i j; simp [predictLoop]
  | cons s rest ih =>
      intro i j
      cases j with
      | zero => simp [predictLoop]
      | succ j =>
          have h := ih (i + 1) j
          simp only [predictLoop, List.getElem?_cons_succ, h]
          have harith : i + 1 + j = i + (j + 1) := by omega
          rw [harith]

/-- C7: for every batch of n scenario rows, `predict` emits exactly n result
rows in input order; row j is a function of scenario j alone; a scenario
whose body raises is converted to an error row carrying that scenario's
identifier and the error text, and a scenario whose body succeeds contributes
its normal row unchanged — independent of every other scenario. -/
theorem C7_batch_isolation :
    ∀ (body : Nat → ScenRow → Except String ResultRow) (rows : List ScenRow),
      (predictBatch body rows).length = rows.length ∧
      (∀ j, (predictBatch body rows)[j]? = (rows[j]?).map (stepScenRow body j)) ∧
      (∀ j s e, rows[j]? = some s → body j s = Except.error e →
        (predictBatch body rows)[j]? = some (errorRow (scenName j s) e)) ∧
      (∀ j s r, rows[j]? = some s → body j s = Except.ok r →
        (predictBatch body rows)[j]? = some r) := by
  intro body rows
  have hget : ∀ j, (predictBatch body rows)[j]? = (rows[j]?).map (stepScenRow body j) := by
    intro j
    have h := predictLoop_getElem body rows 0 j
    simpa [predictBatch] using h
  refine ⟨predictLoop_length body rows 0, hget, ?_, ?_⟩
  · intro j s e hs hb
    rw [hget j, hs]
    simp [stepScenRow, hb]
  · intro j s r hs hb
    rw [hget j, hs]
    simp [stepScenRow, hb]

/-- C8: an aggregation call with a `model_type` outside {time, composite}
fails with the unknown-model error, and with an `aggregation` outside
{mean, median, min, max} no cost matrix is ever returned — there is no
silent fallback to a default model or statistic. -/
theorem C8_invalid_parameters_fail :
    ∀ (rows : List ShipmentRecord) (model_type aggregation : String),
      (model_type ≠ "time" → model_type ≠ "composite" →
        generate_cost_matrix_from_data rows model_type aggregation =
          Except.error ("Unknown model_type: " ++ model_type)) ∧
      ((model_type = "time" ∨ model_type = "composite") →
        aggregation ≠ "mean" → aggregation ≠ "median" →
        aggregation ≠ "min" → aggregation ≠ "max" →
        generate_cost_matrix_from_data rows model_type aggregation =
          Except.error ("Unknown aggregation method: " ++ aggregation)) ∧
      (aggregation ≠ "mean" → aggregation ≠ "median" →
        aggregation ≠ "min" → aggregation ≠ "max" →
        ∀ m, generate_cost_matrix_from_data rows model_type aggregation ≠
          Except.ok m) := by
  intro rows mt agg
  refine ⟨?_, ?_, ?_⟩
  · intro h1 h2
    simp [generate_cost_matrix_from_data, h1, h2]
  · rintro (h | h) a1 a2 a3 a4 <;> subst h <;>
      simp [generate_cost_matrix_from_data, aggregateRoutes, a1, a2, a3, a4]
  · intro a1 a2 a3 a4 m
    by_cases h1 : mt = "time"
    · subst h1
      simp [generate_cost_matrix_from_data, aggregateRoutes, a1, a2, a3, a4]
    · by_cases h2 : mt = "composite"
      · subst h2
        simp [generate_cost_matrix_from_data, aggregateRoutes, a1, a2, a3, a4]
      · simp [generate_cost_matrix_from_data, h1, h2]

/-- A concrete shipment record on route Warehouse_A → Customer_1 whose
time-model cost is 25/8 = 3.125, not a multiple of 0.01. -/
def recA1 : ShipmentRecord :=
  ⟨"Warehouse_A", "Customer_1", 1, 1, 1, 1, 1, 1 / 8, 1, 1⟩

theorem aggregateRoutes_single (w c : String) (v : ℚ) (agg : String)
    (h : agg = "mean" ∨ agg = "median" ∨ agg = "min" ∨ agg = "max") :
    aggregateRoutes [(w, c, v)] agg = Except.ok [((w, c), round2 v)] := by
  have hkeys : routeKeys [(w, c, v)] = [(w, c)] := by simp [routeKeys]
  have hcosts : routeCosts [(w, c, v)] (w, c) = [v] := by simp [routeCosts]
  have hmean : meanList [v] = v := by simp [meanList, sumList]
  have hmedian : medianList [v] = v := by norm_num [medianList, sortQ, insertSorted]
  have hmin : minList [v] = v := rfl
  have hmax : maxList [v] = v := rfl
  rcases h with h | h | h | h <;> subst h <;>
    simp [aggregateRoutes, hkeys, hcosts, hmean, hmedian, hmin, hmax]

/-- C9 counterexample: a single-record group whose computed time-model cost
is 25/8 = 3.125 aggregates (with `mean`) to the rounded matrix entry
78/25 = 3.12 — not exactly the record's computed cost, because the matrix is
rounded to two decimals. -/
theorem C9_rounding_breaks_exactness :
    generate_cost_matrix_from_data [recA1] "time" "mean" =
      Except.ok [(("Warehouse_A", "Customer_1"), 78 / 25)] ∧
    timeCost recA1 = 25 / 8 ∧ (78 / 25 : ℚ) ≠ 25 / 8 := by
  have hcost : timeCost recA1 = 25 / 8 := by norm_num [timeCost, recA1]
  have hround : round2 (25 / 8) = 78 / 25 := by
    have hfloor : ⌊(25 / 8 : ℚ) * 100⌋ = 312 := by norm_num
    norm_num [round2, roundHalfEvenInt, hfloor]
  have hgen : generate_cost_matrix_from_data [recA1] "time" "mean" =
      Except.ok [(("Warehouse_A", "Customer_1"), round2 (timeCost recA1))] := by
    have h := aggregateRoutes_single "Warehouse_A" "Customer_1" (timeCost recA1)
      "mean" (Or.inl rfl)
    simpa [generate_cost_matrix_from_data, recA1] using h
  rw [hcost, hround] at hgen
  exact ⟨hgen, hcost, by norm_num⟩

/-- C9 (amended): aggregating a single-record group with any of the four
statistics yields exactly that record's computed per-record cost rounded to
two decimal places (hence exactly the computed cost whenever that cost is a
multiple of 0.01). -/
theorem C9_single_record_aggregation :
    ∀ (r : ShipmentRecord) (aggregation : String),
      (aggregation = "mean" ∨ aggregation = "median" ∨
       aggregation = "min" ∨ aggregation = "max") →
      generate_cost_matrix_from_data [r] "composite" aggregation =
        Except.ok [((r.warehouse, r.customer), round2 (compositeCost r))] ∧
      generate_cost_matrix_from_data [r] "time" aggregation =
        Except.ok [((r.warehouse, r.customer), round2 (timeCost r))] := by
  intro r agg h
  constructor
  · have hagg := aggregateRoutes_single r.warehouse r.customer (compositeCost r) agg h
    simpa [generate_cost_matrix_from_data] using hagg
  · have hagg := aggregateRoutes_single r.warehouse r.customer (timeCost r) agg h
    simpa [generate_cost_matrix_from_data] using hagg

/-- Witness for the amended C9 at the concrete record `recA1` with `mean`. -/
theorem C9_single_record_aggregation_witness :
    generate_cost_matrix_from_data [recA1] "composite" "mean" =
      Except.ok [(("Warehouse_A", "Customer_1"), round2 (compositeCost recA1))] :=
  (C9_single_record_aggregation recA1 "mean" (Or.inl rfl)).1

/-- C10: every provided capacity/demand override is coerced with Python
`int()` — truncation toward zero (floor for nonnegative values, ceiling for
negative ones) — before it replaces the template value, so a fractional
override such as 70.9 is applied as 70 rather than used as given. -/
theorem C10_overrides_truncated :
    ∀ (base : Constraints) (s : ScenRow) (vA vB v1 v2 : ℚ),
      s.warehouse_a_capacity = some vA →
      s.warehouse_b_capacity = some vB →
      s.customer_1_demand = some v1 →
      s.customer_2_demand = some v2 →
      applyConfigOverrides base s =
        ⟨((pyInt vA : ℤ) : ℚ), ((pyInt vB : ℤ) : ℚ),
         ((pyInt v1 : ℤ) : ℚ), ((pyInt v2 : ℤ) : ℚ)⟩ ∧
      (∀ v : ℚ, 0 ≤ v → ((pyInt v : ℤ) : ℚ) ≤ v ∧ v - 1 < ((pyInt v : ℤ) : ℚ)) ∧
      (∀ v : ℚ, v < 0 → v ≤ ((pyInt v : ℤ) : ℚ) ∧ ((pyInt v : ℤ) : ℚ) < v + 1) := by
  intro base s vA vB v1 v2 hA hB h1 h2
  refine ⟨?_, ?_, ?_⟩
  · simp [applyConfigOverrides, hA, hB, h1, h2]
  · intro v hv
    simp only [pyInt, if_pos hv]
    exact ⟨Int.floor_le v, Int.sub_one_lt_floor v⟩
  · intro v hv
    simp only [pyInt, if_neg (not_le.mpr hv)]
    exact ⟨Int.le_ceil v, Int.ceil_lt_add_one v⟩

/-- The scenario row with the fractional capacity override 70.9 = 709/10. -/
def fractionalRow : ScenRow :=
  { emptyScenRow with
      scenario_name := some "fractional_overrides",
      warehouse_a_capacity := some (709 / 10),
      warehouse_b_capacity := some 80,
      customer_1_demand := some 70,
      customer_2_demand := some 60 }

/-- Witness for C10: the override 70.9 is applied as capacity 70. -/
theorem C10_overrides_truncated_witness :
    applyConfigOverrides refK fractionalRow = ⟨70, 80, 70, 60⟩ := by
  have h := (C10_overrides_truncated refK fractionalRow (709 / 10) 80 70 60
      rfl rfl rfl rfl).1
  rw [h]
  norm_num [pyInt, Constraints.mk.injEq, Int.floor_eq_iff]

end TransportOpt
